import Mathlib

set_option maxRecDepth 4000

/-!
Verification of the ScholarSynth literature-review backend.

This file gives a shallow embedding of the two source modules the claims
are about, and proves the claimed properties over that embedding:

* `groq_client.py` — the `GroqChatCompletionClient` chat adapter: message
  normalization (`_format_messages` plus the fallback inside `create`) and
  the HTTP error classification performed by `create`.
* `agent_be.py` — `get_papers_sync` (paper records built from arXiv
  results), `create_formatted_review` (the deterministic fallback
  formatter) and `LitReviewSystem.run_stream` (the orchestrator).

Python strings are embedded as `List Char` (`Str`) where character-exact
reasoning is needed (the formatter and orchestrator), and as Lean `String`
in the chat-adapter part where only whole-value equalities matter.
Python slicing, `str.replace`, `str.strip` and f-string interpolation are
translated operation by operation; machine-level details (HTTP, the arXiv
client, the event loop) enter as explicit environment data.
-/

/-! ## Generic character-list helpers (Python string operations) -/

/-- Python strings by character; `s[:n]` is `List.take`, `+` is `++`. -/
abbrev Str := List Char

/-- Character list of a Lean string literal. -/
def lit (s : String) : Str := s.toList

/-- `listStartsWith s pat`: `pat` is a prefix of `s` (Python `s.startswith(pat)`). -/
def listStartsWith : Str → Str → Bool
  | _, [] => true
  | [], _ :: _ => false
  | a :: as, b :: bs => a == b && listStartsWith as bs

/-- Substring containment, Python `pat in s`. -/
def listContainsSub : Str → Str → Bool
  | [], pat => listStartsWith [] pat
  | c :: rest, pat => listStartsWith (c :: rest) pat || listContainsSub rest pat

/-- Worker for `removeSub`: while `skip > 0` the characters of an already
matched occurrence are dropped; at `skip = 0` the scan looks for the next
occurrence of `pat`, exactly like Python `s.replace(pat, "")`, which
restarts the search after each replaced segment. -/
def removeSubGo (pat : Str) : Nat → Str → Str
  | _ + 1, [] => []
  | skip + 1, _ :: rest => removeSubGo pat skip rest
  | 0, [] => []
  | 0, c :: rest =>
      if listStartsWith (c :: rest) pat then removeSubGo pat (pat.length - 1) rest
      else c :: removeSubGo pat 0 rest

/-- Python `s.replace(pat, "")` for a non-empty pattern `pat`: every
left-to-right non-overlapping occurrence of `pat` is deleted. -/
def removeSub (pat s : Str) : Str := removeSubGo pat 0 s

/-- Python whitespace for `str.strip()` (the ASCII whitespace characters;
the source never feeds other Unicode whitespace to `strip`). -/
def pyIsSpace (c : Char) : Bool :=
  c == ' ' || c == '\t' || c == '\n' || c == '\r' || c == '\x0b' || c == '\x0c'

/-- Python `s.strip()`: leading and trailing whitespace removed. -/
def pyStrip (s : Str) : Str :=
  ((s.dropWhile pyIsSpace).reverse.dropWhile pyIsSpace).reverse

/-- Python `s.replace('\n', ' ')` (single-character pattern). -/
def nlToSpace (s : Str) : Str := s.map fun c => if c == '\n' then ' ' else c

/-- Python `", ".join(xs)`. -/
def commaJoin (xs : List Str) : Str := List.intercalate (lit ", ") xs

/-! ## `groq_client.py` — values and message normalization

`GroqChatCompletionClient._format_messages` (lines 73–98) is duck-typed:
it accepts AutoGen message objects (attribute `source`), mappings, and
anything else (coerced with `str`).  A small closed value universe stands
in for the Python values that actually flow through this code. -/

/-- Python values reaching the normalization code: strings, lists, dicts. -/
inductive PyVal where
  | str (s : String)
  | list (items : List PyVal)
  | dict (entries : List (String × PyVal))

mutual

/-- Python `repr` of a value (`str` falls back to this for lists/dicts):
single-quoted strings, `[...]` lists, `{...}` dicts. -/
def pyRepr : PyVal → String
  | .str s => "\x27" ++ s ++ "\x27"
  | .list items => "[" ++ pyReprItems items ++ "]"
  | .dict entries => "\x7b" ++ pyReprEntries entries ++ "\x7d"

/-- `repr` of list items, comma separated. -/
def pyReprItems : List PyVal → String
  | [] => ""
  | [v] => pyRepr v
  | v :: rest => pyRepr v ++ ", " ++ pyReprItems rest

/-- `repr` of dict entries, comma separated, keys single-quoted. -/
def pyReprEntries : List (String × PyVal) → String
  | [] => ""
  | [(k, v)] => "\x27" ++ k ++ "\x27: " ++ pyRepr v
  | (k, v) :: rest => "\x27" ++ k ++ "\x27: " ++ pyRepr v ++ ", " ++ pyReprEntries rest

end

/-- Python `str(v)`: identity on strings, `repr` otherwise. -/
def pyStr : PyVal → String
  | .str s => s
  | v => pyRepr v

mutual

/-- `json.dumps(v)` with the default separators `", "` and `": "` —
double-quoted strings (the source only ever serializes plain text). -/
def jsonDumps : PyVal → String
  | .str s => "\"" ++ s ++ "\""
  | .list items => "[" ++ jsonDumpsItems items ++ "]"
  | .dict entries => "\x7b" ++ jsonDumpsEntries entries ++ "\x7d"

/-- `json.dumps` of list items. -/
def jsonDumpsItems : List PyVal → String
  | [] => ""
  | [v] => jsonDumps v
  | v :: rest => jsonDumps v ++ ", " ++ jsonDumpsItems rest

/-- `json.dumps` of dict entries. -/
def jsonDumpsEntries : List (String × PyVal) → String
  | [] => ""
  | [(k, v)] => "\"" ++ k ++ "\": " ++ jsonDumps v
  | (k, v) :: rest => "\"" ++ k ++ "\": " ++ jsonDumps v ++ ", " ++ jsonDumpsEntries rest

end

/-- Python `m.get(k)` on a dict given as an entry list. -/
def dictGet (k : String) (entries : List (String × PyVal)) : Option PyVal :=
  (entries.find? fun e => e.1 == k).map fun e => e.2

/-- One element of the heterogeneous message sequence `_format_messages`
iterates over (lines 76–88 of `groq_client.py`):
an AutoGen message object (has attribute `source`; AutoGen messages also
carry `content`), a mapping, a plain string, or any other object. -/
inductive AMsg where
  | autogen (source : String) (content : PyVal)
  | pydict (entries : List (String × PyVal))
  | pystr (s : String)
  | other (v : PyVal)

/-- One normalized `{"role": role, "content": str(content)}` pair appended
by `_format_messages`.  The role is whatever Python value was found (only
the content is forced through `str`). -/
structure ChatMsg where
  role : PyVal
  content : String

/-- The per-element body of `_format_messages` (lines 77–97):
`source`-bearing objects map to assistant/user by source, dicts use
`m.get('role', 'user')` and `m.get('content', str(m))`, everything else
becomes a user message with `str(m)` as content; list/dict content is
serialized with `json.dumps` before the final `str`. -/
def format_message : AMsg → ChatMsg
  | .autogen src content =>
      { role := PyVal.str (if src ≠ "user" then "assistant" else "user")
        content := pyStr content }
  | .pydict entries =>
      let role := (dictGet "role" entries).getD (PyVal.str "user")
      let content := (dictGet "content" entries).getD (PyVal.str (pyRepr (PyVal.dict entries)))
      let contentStr :=
        match content with
        | PyVal.list items => jsonDumps (PyVal.list items)
        | PyVal.dict es => jsonDumps (PyVal.dict es)
        | PyVal.str s => s
      { role := role, content := contentStr }
  | .pystr s => { role := PyVal.str "user", content := s }
  | .other v => { role := PyVal.str "user", content := pyStr v }

/-- `_format_messages` on a list argument: one output pair per element. -/
def format_messages_list (ms : List AMsg) : List ChatMsg := ms.map format_message

/-- `_format_messages` on a string argument: Python `for m in messages`
iterates a `str` character by character, and each one-character string
lands in the final branch (role `"user"`, content the character). -/
def format_messages_str (s : String) : List ChatMsg :=
  s.toList.map fun c => { role := PyVal.str "user", content := String.singleton c }

/-- The `messages` argument of `create` (line 100): a string, a list of
message-like values, or a non-iterable object (carried as its `str` form). -/
inductive CreateInput where
  | strInput (s : String)
  | listInput (ms : List AMsg)
  | nonIterable (reprStr : String)

/-- The net normalization performed by `create` (lines 109–122): it calls
`_format_messages`, which succeeds for strings and lists; only a
non-iterable `messages` makes the `for` loop raise, and the `except`
fallback then takes its final branch
`[{"role": "user", "content": str(messages)}]` (the string and non-empty
list fallback branches are unreachable because `_format_messages` does not
raise on those inputs). -/
def createNormalize : CreateInput → List ChatMsg
  | .strInput s => format_messages_str s
  | .listInput ms => format_messages_list ms
  | .nonIterable r => [{ role := PyVal.str "user", content := r }]

/-! ## `groq_client.py` — HTTP error classification in `create` -/

/-- Outcome of the single `httpx` POST inside `create` (lines 132–165):
2xx success with the reply text, a non-2xx response (`raise_for_status`
raised `HTTPStatusError` carrying the status and body), or a
network-level failure (timeout, connection error, JSON decode error). -/
inductive WireOutcome where
  | success (content : String)
  | httpError (status : Nat) (body : String)
  | networkFailure (msg : String)

/-- The spec taxonomy (§7) applied to the exceptions `create` lets escape:
`authError` is the `ValueError` raised at status 401, `rateLimited` the
`ValueError` raised at 429 or a rate-limit 400 body, `modelUnavailable`
the `ValueError` raised for a decommissioned-model 400 body, and
`transportError` the re-raised original exception (`raise` on line 162 /
line 165), carrying the status (when an HTTP response existed) and text. -/
inductive CreateFailure where
  | authError
  | rateLimited
  | modelUnavailable
  | transportError (status : Option Nat) (body : String)
deriving DecidableEq

/-- Python `s.lower()` (ASCII; the compared keywords are ASCII). -/
def lowerStr (s : String) : String := String.mk (s.toList.map Char.toLower)

/-- Substring test on Lean strings, Python `pat in s`. -/
def containsText (s pat : String) : Bool := listContainsSub s.toList pat.toList

/-- The `except httpx.HTTPStatusError` handler of `create` (lines 147–162):
status 400 raises `ModelUnavailable` when the lowercased body contains both
`"model"` and `"decommissioned"`, else `RateLimited` when it contains
`"rate limit"`, else falls through to the bare `raise`; 401 raises
`AuthError`; 429 raises `RateLimited`; anything else re-raises. -/
def handle_status_error (status : Nat) (body : String) : CreateFailure :=
  let lower := lowerStr body
  if status = 400 then
    if containsText lower "model" && containsText lower "decommissioned" then
      CreateFailure.modelUnavailable
    else if containsText lower "rate limit" then
      CreateFailure.rateLimited
    else
      CreateFailure.transportError (some status) body
  else if status = 401 then
    CreateFailure.authError
  else if status = 429 then
    CreateFailure.rateLimited
  else
    CreateFailure.transportError (some status) body

/-- Result of `create` as a function of the wire outcome: the reply text on
2xx, the classified failure otherwise (network-level failures hit the outer
`except Exception` and are re-raised unchanged — `TransportError`). -/
def create_result : WireOutcome → Except CreateFailure String
  | .success content => .ok content
  | .httpError status body => .error (handle_status_error status body)
  | .networkFailure msg => .error (.transportError none msg)

/-! ## `agent_be.py` — paper records and the deterministic formatter -/

/-- One raw arXiv result as `get_papers_sync` reads it (lines 23–30):
the title and abstract text, the author names, the already-formatted
publication date (`strftime("%Y-%m-%d")` is external date formatting),
and the PDF link. -/
structure RawResult where
  title : Str
  authors : List Str
  published : Str
  summary : Str
  pdf_url : Str
deriving DecidableEq

/-- A paper record as serialized by `get_papers_sync` and re-parsed by
`json.loads` inside `create_formatted_review`.  Fields are optional
because the formatter reads them with `paper.get(key, default)`;
records built by `get_papers_sync` always carry all five keys. -/
structure Paper where
  title : Option Str
  authors : Option (List Str)
  published : Option Str
  summary : Option Str
  pdf_url : Option Str
deriving DecidableEq

/-- The summary field built on line 28:
`result.summary.strip().replace('\n', ' ')[:400] + "..."` — strip, then
newline-to-space, then cut at 400 characters, then an unconditional
ellipsis. -/
def mkSummary (raw : Str) : Str :=
  (nlToSpace (pyStrip raw)).take 400 ++ lit "..."

/-- The record dict appended for one arXiv result (lines 24–30). -/
def fetchedPaper (r : RawResult) : Paper :=
  { title := some (pyStrip r.title)
    authors := some r.authors
    published := some r.published
    summary := some (mkSummary r.summary)
    pdf_url := some r.pdf_url }

/-- `(toString n).toList` for section numbers (`enumerate(papers, 1)`). -/
def natStr (n : Nat) : Str := (toString n).toList

/-- Author formatting (lines 65–68): more than three authors keeps the
first three and appends `" et al."`, otherwise all are comma-joined. -/
def formatAuthors (authors : List Str) : Str :=
  if 3 < authors.length then commaJoin (authors.take 3) ++ lit " et al."
  else commaJoin authors

/-- Summary cleanup (line 71): `summary.replace('...', '').strip()`. -/
def cleanSummary (summary : Str) : Str :=
  pyStrip (removeSub (lit "...") summary)

/-- Summary truncation (lines 72–73): over 300 characters after cleanup,
keep the first 300 and append `"..."`. -/
def formatSummary (summary : Str) : Str :=
  let c := cleanSummary summary
  if 300 < c.length then c.take 300 ++ lit "..." else c

/-- One paper section of the review (the f-string on lines 75–86),
numbered `i`, with the `paper.get` defaults of lines 58–62. -/
def paperSection (topic : Str) (i : Nat) (p : Paper) : Str :=
  let title := p.title.getD (lit "Unknown Title")
  let authors := p.authors.getD []
  let published := p.published.getD (lit "Unknown Date")
  let summary := p.summary.getD (lit "No summary available")
  let pdfUrl := p.pdf_url.getD (lit "#")
  lit "### " ++ natStr i ++ lit ". [" ++ title ++ lit "](" ++ pdfUrl
    ++ lit ")\n\n**Authors:** " ++ formatAuthors authors
    ++ lit "  \n**Published:** " ++ published
    ++ lit "\n\n**Summary:** " ++ formatSummary summary
    ++ lit "\n\n**Key Contributions:** This work contributes to the " ++ topic
    ++ lit " field by addressing important research questions and presenting novel approaches to existing challenges.\n\n---\n\n"

/-- The paper sections in input order, numbered from 1 (line 57). -/
def paperSections (topic : Str) : Nat → List Paper → Str
  | _, [] => []
  | i, p :: rest => paperSection topic i p ++ paperSections topic (i + 1) rest

/-- The review header and introduction (the f-string on lines 46–54). -/
def introSection (topic : Str) (count : Nat) : Str :=
  lit "# Literature Review: " ++ topic
    ++ lit "\n\n## Introduction\n\nThis literature review examines recent research developments in the field of "
    ++ topic ++ lit ". The following analysis is based on " ++ natStr count
    ++ lit " relevant papers retrieved from arXiv, providing insights into current methodologies, key contributions, and emerging trends in this domain.\n\n## Paper Analysis\n\n"

/-- The fixed conclusion and references block (lines 89–98). -/
def conclusionSection (topic : Str) : Str :=
  lit "## Conclusion\n\nThe reviewed papers demonstrate significant progress in " ++ topic
    ++ lit " research. Key themes across the literature include methodological innovations, practical applications, and theoretical advancements. Future research directions may focus on addressing current limitations and exploring new applications of these techniques.\n\n## References\n\nAll papers are available through arXiv and can be accessed via the provided links above.\n\n---\n*Literature review generated using AutoGen multi-agent system*"

/-- Tail of the empty-result document, after the interpolated topic. -/
def noPapersTail : Str := lit "\n\n❌ No papers found for this topic."

/-- The empty-result document (line 43). -/
def noPapersDoc (topic : Str) : Str :=
  lit "# Literature Review: " ++ (topic ++ noPapersTail)

/-- `create_formatted_review(topic, papers_json)` (lines 37–100) on the
already-parsed paper list.  Inside `run_stream` the JSON argument is
always `json.dumps` of exactly such a list, so `json.loads` succeeds and
the `except` branch of lines 102–111 is unreachable on this pipeline;
`if not papers` is emptiness of the parsed list. -/
def create_formatted_review (topic : Str) (papers : List Paper) : Str :=
  if papers.isEmpty then noPapersDoc topic
  else introSection topic papers.length ++ paperSections topic 1 papers ++ conclusionSection topic

/-! ## `agent_be.py` — the orchestrator `LitReviewSystem.run_stream`

The orchestrator is embedded as a trace function: one invocation maps an
environment (credential availability, what the arXiv client returns, what
the chat endpoint returns) to the ordered list of its observable events —
adapter construction, the fetch call, the chat-completion call, and each
`yield TextMessage(...)`. -/

/-- Observable events of one `run_stream` invocation. -/
inductive Event where
  | adapterConstructed
  | fetchCall (query : Str)
  | createCall
  | yieldMsg (content : Str) (source : Str)
deriving DecidableEq

/-- A raised Python exception: `ValueError` is caught by the dedicated
handler on line 244, everything else by the handler on line 247. -/
inductive PyErr where
  | valueError (msg : Str)
  | otherError (msg : Str)

/-- Environment of one invocation: whether `self.model_client` survives
from an earlier call (then `_initialize_clients` is a no-op), the
credential `_get_api_key` resolves (explicit env var or Streamlit session
state, `None` when every source is empty), whether the arXiv iteration
raises (then `get_papers_sync` returns the JSON of `[]`), the raw arXiv
results otherwise, and the outcome of `model_client.create`. -/
structure Env where
  clientReady : Bool
  apiKey : Option Str
  fetchRaises : Bool
  rawResults : List RawResult
  aiResult : Except Str Str

/-- The `ValueError` message of `_initialize_clients` (line 151). -/
def groqKeyErrMsg : Str :=
  lit "GROQ_API_KEY is not available. Please set it in environment variables or Streamlit session state."

/-- The no-papers message yielded on line 207. -/
def noPapersMsg : Str :=
  lit "❌ No papers found for this topic. Please try a different search term."

/-- `get_papers_sync(query, 5)` (lines 13–34) as seen by `run_stream`:
the parsed form of the returned JSON.  The query and the result cap are
handled by the external arXiv service; its results (at most 5) arrive in
`Env.rawResults`, and any exception while iterating is caught inside the
function, which then returns the JSON of the empty list. -/
def get_papers_sync (env : Env) (_query : Str) : List Paper :=
  if env.fetchRaises then [] else env.rawResults.map fetchedPaper

/-- `_initialize_clients` (lines 144–192): a no-op when the client already
exists; otherwise it raises `ValueError` when `_get_api_key` found nothing,
and else constructs the `GroqChatCompletionClient` (and the two agents). -/
def init_clients (env : Env) : Except PyErr (List Event) :=
  if env.clientReady then .ok []
  else
    match env.apiKey with
    | none => .error (.valueError groqKeyErrMsg)
    | some _ => .ok [Event.adapterConstructed]

/-- The fixed task text prepended by `generate_lit_review` (line 256). -/
def taskMarker : Str := lit "Conduct a literature review on the topic: "

/-- `task.replace("Conduct a literature review on the topic: ", "")`. -/
def topicOf (task : Str) : Str := removeSub taskMarker task

/-- Body of the outer `try` of `run_stream` (lines 198–242): the events
produced so far, paired with the exception that escaped the body, if any.
The check `if not papers_json or papers_json == "[]"` holds exactly when
the parsed paper list is empty (`json.dumps` of a non-empty list is never
`"[]"` or empty, and of `[]` is `"[]"`).  The inner `try` of lines
214–242 is rendered directly: a successful `create` yields the AI text
when it is non-empty and its stripped length exceeds 100, and every other
outcome — `create` raising, or the `raise` on line 236 for short output —
lands in the `except` that yields the deterministic formatter output. -/
def run_stream_body (env : Env) (task : Str) : List Event × Option PyErr :=
  let topic := topicOf task
  match init_clients env with
  | .error e => ([], some e)
  | .ok initEvents =>
    let papers := get_papers_sync env topic
    let events := initEvents ++ [Event.fetchCall topic]
    if papers.isEmpty then
      (events ++ [Event.yieldMsg noPapersMsg (lit "researcher")], none)
    else
      match env.aiResult with
      | .ok ai =>
          if ai ≠ [] ∧ 100 < (pyStrip ai).length then
            (events ++ [Event.createCall, Event.yieldMsg ai (lit "summarizer")], none)
          else
            (events ++ [Event.createCall,
              Event.yieldMsg (create_formatted_review topic papers) (lit "summarizer")], none)
      | .error _ =>
          (events ++ [Event.createCall,
            Event.yieldMsg (create_formatted_review topic papers) (lit "summarizer")], none)

/-- `run_stream` (lines 194–248): the body, with the two `except` handlers
of lines 244–248 turning an escaped exception into one final yielded
message (`ValueError` — the missing-credential case — gets the
configuration-error text, anything else the generic error text). -/
def run_stream (env : Env) (task : Str) : List Event :=
  match run_stream_body env task with
  | (events, none) => events
  | (events, some (.valueError m)) =>
      events ++ [Event.yieldMsg (lit "❌ Configuration Error: " ++ m) (lit "system")]
  | (events, some (.otherError m)) =>
      events ++ [Event.yieldMsg (lit "❌ Error: " ++ m) (lit "system")]

/-- Is this event a `yield`? -/
def isYield : Event → Bool
  | .yieldMsg _ _ => true
  | _ => false

/-- Is this event the fetch call? -/
def isFetch : Event → Bool
  | .fetchCall _ => true
  | _ => false

/-- The yielded messages of a trace, in order. -/
def yields (events : List Event) : List Event := events.filter isYield

/-! ## Helper lemmas -/

/-- The empty pattern is a prefix of everything. -/
theorem listStartsWith_nil (s : Str) : listStartsWith s [] = true := by
  cases s <;> rfl

/-- Containment is preserved by extending a string on the left. -/
theorem listContainsSub_append_right (a b p : Str) (h : listContainsSub b p = true) :
    listContainsSub (a ++ b) p = true := by
  induction a with
  | nil => simpa using h
  | cons x xs ih =>
      simp only [List.cons_append, listContainsSub, Bool.or_eq_true]
      exact Or.inr ih

/-- An all-`'#'` pattern that is a prefix of `t ++ noPapersTail` is already
a prefix of `t`, because `noPapersTail` starts with a newline. -/
theorem listStartsWith_hash_tail :
    ∀ (t p : Str), p ≠ [] → (∀ c ∈ p, c = '#') →
      listStartsWith (t ++ noPapersTail) p = true → listStartsWith t p = true := by
  intro t
  induction t with
  | nil =>
      intro p hp hall h
      cases p with
      | nil => exact absurd rfl hp
      | cons c p' =>
          have hc : c = '#' := hall c (List.mem_cons_self c p')
          subst hc
          rw [List.nil_append] at h
          have e : noPapersTail = '\n' :: lit "\n❌ No papers found for this topic." := rfl
          rw [e] at h
          simp [listStartsWith] at h
  | cons x xs ih =>
      intro p hp hall h
      cases p with
      | nil => exact absurd rfl hp
      | cons c p' =>
          have hc : c = '#' := hall c (List.mem_cons_self c p')
          subst hc
          simp only [List.cons_append, listStartsWith, Bool.and_eq_true, beq_iff_eq] at h ⊢
          refine ⟨h.1, ?_⟩
          cases p' with
          | nil => exact listStartsWith_nil xs
          | cons d p'' =>
              exact ih (d :: p'') (by simp)
                (fun c hcm => hall c (List.mem_cons_of_mem _ hcm)) h.2

/-- `"###"` occurring in `t ++ noPapersTail` already occurs in `t`. -/
theorem listContainsSub_hash_tail :
    ∀ t : Str, listContainsSub (t ++ noPapersTail) (lit "###") = true →
      listContainsSub t (lit "###") = true := by
  intro t
  induction t with
  | nil =>
      intro h
      rw [List.nil_append] at h
      exact absurd h (by decide)
  | cons x xs ih =>
      intro h
      simp only [List.cons_append, listContainsSub, Bool.or_eq_true] at h ⊢
      cases h with
      | inl hsw =>
          exact Or.inl (listStartsWith_hash_tail (x :: xs) (lit "###") (by decide) (by decide)
            (by simpa [List.cons_append] using hsw))
      | inr hrest => exact Or.inr (ih hrest)

/-- The empty-result document contains `"###"` only if the topic does: the
title line contributes a single `'#'` followed by a space, and the tail
has none. -/
theorem noPapersDoc_no_hash (topic : Str) (h : listContainsSub topic (lit "###") = false) :
    listContainsSub (noPapersDoc topic) (lit "###") = false := by
  have epat : lit "###" = '#' :: '#' :: '#' :: [] := rfl
  have key : ∀ u : Str, listContainsSub u (lit "###") = false →
      listContainsSub (lit "# Literature Review: " ++ u) (lit "###") = false := by
    intro u hu
    have e : lit "# Literature Review: " ++ u =
        '#' :: ' ' :: 'L' :: 'i' :: 't' :: 'e' :: 'r' :: 'a' :: 't' :: 'u' :: 'r' :: 'e' ::
        ' ' :: 'R' :: 'e' :: 'v' :: 'i' :: 'e' :: 'w' :: ':' :: ' ' :: u := rfl
    rw [e, epat]
    rw [epat] at hu
    simp [listContainsSub, listStartsWith, hu]
  have hu : listContainsSub (topic ++ noPapersTail) (lit "###") = false := by
    cases hb : listContainsSub (topic ++ noPapersTail) (lit "###") with
    | false => rfl
    | true => exact absurd (listContainsSub_hash_tail topic hb) (by rw [h]; simp)
  exact key (topic ++ noPapersTail) hu

/-! ## Concrete environments used as witnesses and counterexamples -/

/-- A task string as built by `generate_lit_review`. -/
def taskQuantum : Str := lit "Conduct a literature review on the topic: quantum computing"

/-- Fresh system, no credential from any source. -/
def envNoCredential : Env :=
  { clientReady := false, apiKey := none, fetchRaises := false
    rawResults := [], aiResult := Except.error [] }

/-- Fresh system with a credential; the arXiv search yields nothing. -/
def envNoPapers : Env :=
  { clientReady := false, apiKey := some (lit "gsk_demo"), fetchRaises := false
    rawResults := [], aiResult := Except.error [] }

/-- Fresh system with a credential; the arXiv iteration raises. -/
def envFetchErr : Env :=
  { clientReady := false, apiKey := some (lit "gsk_demo"), fetchRaises := true
    rawResults := [], aiResult := Except.error [] }

/-- One small arXiv result. -/
def sampleRaw : RawResult :=
  { title := lit "Sample Paper", authors := [lit "A"], published := lit "2024-01-01"
    summary := lit "An abstract.", pdf_url := lit "http://arxiv.org/pdf/1" }

/-- Credential present, one paper, `create` returns 101 space characters. -/
def envWhitespaceAI : Env :=
  { clientReady := false, apiKey := some (lit "gsk_demo"), fetchRaises := false
    rawResults := [sampleRaw], aiResult := Except.ok (List.replicate 101 ' ') }

/-- Credential present, one paper, `create` returns 150 letters. -/
def envLongAI : Env :=
  { clientReady := false, apiKey := some (lit "gsk_demo"), fetchRaises := false
    rawResults := [sampleRaw], aiResult := Except.ok (List.replicate 150 'a') }

/-- Credential present, one paper, `create` raises. -/
def envAIFails : Env :=
  { clientReady := false, apiKey := some (lit "gsk_demo"), fetchRaises := false
    rawResults := [sampleRaw], aiResult := Except.error (lit "boom") }

/-! ## C6 — author formatting -/

/-- C6 (confirmed): a paper with at most 3 authors gets all of them
comma-joined and nothing appended; with at least 4 authors the author
string is exactly the first three comma-joined plus `" et al."`, e.g.
authors `["A","B","C","D"]` produce `"A, B, C et al."`. -/
theorem formatAuthors_spec (authors : List Str) :
    (authors.length ≤ 3 → formatAuthors authors = commaJoin authors)
  ∧ (4 ≤ authors.length →
      formatAuthors authors = commaJoin (authors.take 3) ++ lit " et al.")
  ∧ formatAuthors [lit "A", lit "B", lit "C", lit "D"] = lit "A, B, C et al."
  ∧ (∀ (topic : Str) (i : Nat) (p : Paper), p.authors = some authors →
      ∃ pre suf, paperSection topic i p =
        pre ++ (lit "**Authors:** " ++ (formatAuthors authors ++ (lit "  \n" ++ suf)))) := by
  refine ⟨?_, ?_, by decide, ?_⟩
  · intro h
    rw [formatAuthors, if_neg (by omega)]
  · intro h
    rw [formatAuthors, if_pos (by omega)]
  · intro topic i p h
    refine ⟨lit "### " ++ (natStr i ++ (lit ". [" ++ (p.title.getD (lit "Unknown Title") ++
        (lit "](" ++ (p.pdf_url.getD (lit "#") ++ lit ")\n\n"))))),
      lit "**Published:** " ++ (p.published.getD (lit "Unknown Date") ++
        (lit "\n\n**Summary:** " ++ (formatSummary (p.summary.getD (lit "No summary available")) ++
        (lit "\n\n**Key Contributions:** This work contributes to the " ++ (topic ++
          lit " field by addressing important research questions and presenting novel approaches to existing challenges.\n\n---\n\n"))))), ?_⟩
    have s1 : lit ")\n\n**Authors:** " = lit ")\n\n" ++ lit "**Authors:** " := by decide
    have s2 : lit "  \n**Published:** " = lit "  \n" ++ lit "**Published:** " := by decide
    rw [paperSection, h, s1, s2]
    simp [List.append_assoc]

/-- Witness for `formatAuthors_spec` at the 3/4-author boundary, plus the
author line inside a concrete paper section. -/
theorem formatAuthors_spec_w :
    formatAuthors [lit "A", lit "B", lit "C"] = commaJoin [lit "A", lit "B", lit "C"]
  ∧ formatAuthors [lit "A", lit "B", lit "C", lit "D"] =
      commaJoin ([lit "A", lit "B", lit "C", lit "D"].take 3) ++ lit " et al."
  ∧ ∃ pre suf,
      paperSection (lit "t") 1 (fetchedPaper sampleRaw) =
        pre ++ (lit "**Authors:** " ++
          (formatAuthors [lit "A"] ++ (lit "  \n" ++ suf))) :=
  ⟨(formatAuthors_spec [lit "A", lit "B", lit "C"]).1 (by decide),
   (formatAuthors_spec [lit "A", lit "B", lit "C", lit "D"]).2.1 (by decide),
   (formatAuthors_spec [lit "A"]).2.2.2 (lit "t") 1 (fetchedPaper sampleRaw) rfl⟩

/-! ## C7 — summary truncation -/

/-- C7 (confirmed): after the cleanup `summary.replace('...','').strip()`,
a summary of length at most 300 is emitted unchanged with no ellipsis;
a longer one is cut to exactly its first 300 characters plus `"..."`
(total length 303).  The boundary is exact at 300 versus 301. -/
theorem formatSummary_spec (summary : Str) :
    ((cleanSummary summary).length ≤ 300 → formatSummary summary = cleanSummary summary)
  ∧ (300 < (cleanSummary summary).length →
      formatSummary summary = (cleanSummary summary).take 300 ++ lit "..."
      ∧ (formatSummary summary).length = 303) := by
  constructor
  · intro h
    rw [formatSummary]
    exact if_neg (by omega)
  · intro h
    have he : formatSummary summary = (cleanSummary summary).take 300 ++ lit "..." := by
      rw [formatSummary]
      exact if_pos h
    refine ⟨he, ?_⟩
    rw [he]
    have h3 : (lit "...").length = 3 := by decide
    rw [List.length_append, List.length_take, h3]
    omega

/-- Witness for `formatSummary_spec` at lengths 300 and 301. -/
theorem formatSummary_spec_w :
    formatSummary (List.replicate 300 'a') = cleanSummary (List.replicate 300 'a')
  ∧ formatSummary (List.replicate 301 'a') =
      (cleanSummary (List.replicate 301 'a')).take 300 ++ lit "..." :=
  ⟨(formatSummary_spec (List.replicate 300 'a')).1 (by decide),
   ((formatSummary_spec (List.replicate 301 'a')).2 (by decide)).1⟩

/-! ## C10 — the fetcher appends the ellipsis unconditionally -/

/-- C10 (confirmed): every paper record built by `get_papers_sync` has a
summary of the form `cleaned[:400] ++ "..."`; in particular when the
stripped abstract has at most 400 characters — so nothing was actually
cut — the ellipsis is still appended. -/
theorem fetched_summary_ellipsis (r : RawResult) :
    (fetchedPaper r).summary = some (mkSummary r.summary)
  ∧ mkSummary r.summary = (nlToSpace (pyStrip r.summary)).take 400 ++ lit "..."
  ∧ ((pyStrip r.summary).length ≤ 400 →
      mkSummary r.summary = nlToSpace (pyStrip r.summary) ++ lit "...") := by
  refine ⟨rfl, rfl, ?_⟩
  intro h
  rw [mkSummary, List.take_of_length_le]
  rw [nlToSpace, List.length_map]
  exact h

/-- A raw result whose abstract is far below the 400-character cut. -/
def shortAbstractRaw : RawResult :=
  { title := lit "T", authors := [], published := lit "2024-01-01"
    summary := lit "Short abstract.", pdf_url := lit "u" }

/-- Witness for `fetched_summary_ellipsis` on a short abstract. -/
theorem fetched_summary_ellipsis_w :
    (fetchedPaper shortAbstractRaw).summary =
      some (nlToSpace (pyStrip shortAbstractRaw.summary) ++ lit "...") := by
  have h := fetched_summary_ellipsis shortAbstractRaw
  rw [h.1, h.2.2 (by decide)]

/-! ## C2 — message normalization never fails -/

/-- C2 (counterexample): on the empty list, `_format_messages` succeeds
and returns the empty list — normalization does not produce a non-empty
message list for every input. -/
theorem createNormalize_empty_list :
    createNormalize (CreateInput.listInput []) = []
  ∧ (createNormalize (CreateInput.listInput [])).length = 0 :=
  ⟨rfl, rfl⟩

/-- C2 (amended): the normalization performed by `create` never raises;
a list input yields exactly one `{role, content}` pair per element (so the
empty list yields the empty list), a plain string is iterated character by
character into one user pair per character, a non-iterable object becomes
a single user pair, role defaults to `"user"` for plain strings and for
mappings without a `role` key, and content is always coerced to a string. -/
theorem createNormalize_total (ms : List AMsg) (s : String) (r : String)
    (es : List (String × PyVal)) :
    createNormalize (CreateInput.listInput ms) = ms.map format_message
  ∧ (createNormalize (CreateInput.listInput ms)).length = ms.length
  ∧ createNormalize (CreateInput.strInput s) =
      s.toList.map (fun c => { role := PyVal.str "user", content := String.singleton c : ChatMsg })
  ∧ createNormalize (CreateInput.nonIterable r) = [{ role := PyVal.str "user", content := r }]
  ∧ format_message (AMsg.pystr s) = { role := PyVal.str "user", content := s }
  ∧ (dictGet "role" es = none →
      (format_message (AMsg.pydict es)).role = PyVal.str "user") := by
  refine ⟨rfl, ?_, rfl, rfl, rfl, ?_⟩
  · simp [createNormalize, format_messages_list]
  · intro h
    simp [format_message, h]

/-- Witness for `createNormalize_total`: a mapping without a `role` key is
normalized with the default role `"user"`. -/
theorem createNormalize_total_w :
    (format_message (AMsg.pydict [("content", PyVal.str "hello")])).role = PyVal.str "user" :=
  (createNormalize_total [] "" "" [("content", PyVal.str "hello")]).2.2.2.2.2 rfl

/-! ## C3 — HTTP error classification in `create` -/

/-- C3 (counterexample): a 400 response whose body is just
`"decommissioned"` does not contain `"model"`, so the handler falls
through to the bare `raise` — a `TransportError`, not `ModelUnavailable`. -/
theorem handle_status_error_decommissioned_only :
    handle_status_error 400 "decommissioned" =
      CreateFailure.transportError (some 400) "decommissioned"
  ∧ handle_status_error 400 "decommissioned" ≠ CreateFailure.modelUnavailable := by
  constructor
  · decide
  · decide

/-- C3 (amended): 401 yields `AuthError`; 429 yields `RateLimited`; a 400
whose lowercased body contains both `"model"` and `"decommissioned"`
yields `ModelUnavailable`; a 400 whose body contains `"rate limit"` but
not that pair yields `RateLimited`; every other non-2xx response, and any
network-level failure, yields `TransportError`. -/
theorem create_error_taxonomy (status : Nat) (body : String) :
    (status = 401 → handle_status_error status body = CreateFailure.authError)
  ∧ (status = 429 → handle_status_error status body = CreateFailure.rateLimited)
  ∧ (containsText (lowerStr body) "model" = true →
      containsText (lowerStr body) "decommissioned" = true →
      handle_status_error 400 body = CreateFailure.modelUnavailable)
  ∧ ((containsText (lowerStr body) "model" && containsText (lowerStr body) "decommissioned") = false →
      containsText (lowerStr body) "rate limit" = true →
      handle_status_error 400 body = CreateFailure.rateLimited)
  ∧ ((containsText (lowerStr body) "model" && containsText (lowerStr body) "decommissioned") = false →
      containsText (lowerStr body) "rate limit" = false →
      handle_status_error 400 body = CreateFailure.transportError (some 400) body)
  ∧ (status ≠ 400 → status ≠ 401 → status ≠ 429 →
      handle_status_error status body = CreateFailure.transportError (some status) body)
  ∧ create_result (WireOutcome.networkFailure body) =
      Except.error (CreateFailure.transportError none body) := by
  refine ⟨?_, ?_, ?_, ?_, ?_, ?_, rfl⟩
  · intro h
    subst h
    simp [handle_status_error]
  · intro h
    subst h
    simp [handle_status_error]
  · intro h1 h2
    simp [handle_status_error, h1, h2]
  · intro h1 h2
    simp [handle_status_error, h1, h2]
  · intro h1 h2
    simp [handle_status_error, h1, h2]
  · intro h1 h2 h3
    simp [handle_status_error, h1, h2, h3]

/-- Witness for `create_error_taxonomy` at each mapped failure. -/
theorem create_error_taxonomy_w :
    handle_status_error 401 "Unauthorized" = CreateFailure.authError
  ∧ handle_status_error 400 "The model llama-0 has been decommissioned" =
      CreateFailure.modelUnavailable
  ∧ handle_status_error 400 "rate limit reached" = CreateFailure.rateLimited
  ∧ handle_status_error 503 "unavailable" = CreateFailure.transportError (some 503) "unavailable" :=
  ⟨(create_error_taxonomy 401 "Unauthorized").1 rfl,
   (create_error_taxonomy 400 "The model llama-0 has been decommissioned").2.2.1
     (by decide) (by decide),
   (create_error_taxonomy 400 "rate limit reached").2.2.2.1 (by decide) (by decide),
   (create_error_taxonomy 503 "unavailable").2.2.2.2.2.1
     (by decide) (by decide) (by decide)⟩

/-! ## C8 — the empty-list document -/

/-- C8 (counterexample): with the topic `"###"` the empty-list document
contains `"###"` — the topic is interpolated into the title line, so the
output is not `"###"`-free for every topic string. -/
theorem create_formatted_review_hash_topic :
    listContainsSub (create_formatted_review (lit "###") []) (lit "###") = true := by
  decide

/-- C8 (amended): for every topic, the formatter on an empty paper list
returns exactly the title line naming the topic followed by the no-papers
notice; the document is non-empty, states that no papers were found, has
no paper sections, and contains `"###"` only when the topic itself does. -/
theorem create_formatted_review_empty_list (topic : Str) :
    create_formatted_review topic [] = noPapersDoc topic
  ∧ create_formatted_review topic [] ≠ []
  ∧ listContainsSub (create_formatted_review topic []) (lit "No papers found") = true
  ∧ (listContainsSub topic (lit "###") = false →
      listContainsSub (create_formatted_review topic []) (lit "###") = false) := by
  have hdoc : create_formatted_review topic [] = noPapersDoc topic := rfl
  refine ⟨hdoc, ?_, ?_, ?_⟩
  · intro h
    have h2 : (noPapersDoc topic).head? = none := by
      rw [← hdoc, h]
      rfl
    have h1 : (noPapersDoc topic).head? = some '#' := rfl
    rw [h1] at h2
    cases h2
  · rw [hdoc, noPapersDoc]
    apply listContainsSub_append_right
    apply listContainsSub_append_right
    decide
  · intro h
    rw [hdoc]
    exact noPapersDoc_no_hash topic h

/-- Witness for `create_formatted_review_empty_list` on a plain topic. -/
theorem create_formatted_review_empty_list_w :
    listContainsSub (create_formatted_review (lit "graph neural networks") []) (lit "###") = false :=
  (create_formatted_review_empty_list (lit "graph neural networks")).2.2.2 (by decide)

/-! ## C1 — credential discovery versus the fetch -/

/-- C1 (counterexample): on a fresh system with no credential from any
source, `run_stream` yields only the configuration-error message and its
trace contains no fetch call — the paper fetch is not performed before the
missing credential is discovered. -/
theorem run_stream_no_credential_no_fetch :
    run_stream envNoCredential taskQuantum =
      [Event.yieldMsg (lit "❌ Configuration Error: " ++ groqKeyErrMsg) (lit "system")]
  ∧ (run_stream envNoCredential taskQuantum).all (fun e => !isFetch e) = true := by
  constructor
  · decide
  · decide

/-- C1 (amended): `run_stream` calls `_initialize_clients` before
`get_papers_sync`, so on a fresh system a missing credential is discovered
before any fetch: the run yields a single configuration-error message and
performs no fetch; with a credential present, adapter construction
precedes the fetch call in the trace. -/
theorem run_stream_key_before_fetch (env : Env) (task : Str) :
    (env.clientReady = false → env.apiKey = none →
      run_stream env task =
        [Event.yieldMsg (lit "❌ Configuration Error: " ++ groqKeyErrMsg) (lit "system")])
  ∧ (env.clientReady = false → ∀ k, env.apiKey = some k →
      ∃ rest, run_stream env task =
        Event.adapterConstructed :: Event.fetchCall (topicOf task) :: rest) := by
  constructor
  · intro h1 h2
    simp [run_stream, run_stream_body, init_clients, h1, h2]
  · intro h1 k h2
    by_cases hp : (get_papers_sync env (topicOf task)).isEmpty
    · exact ⟨[Event.yieldMsg noPapersMsg (lit "researcher")],
        by simp [run_stream, run_stream_body, init_clients, h1, h2, hp]⟩
    · cases hai : env.aiResult with
      | ok ai =>
          by_cases hc : ai ≠ [] ∧ 100 < (pyStrip ai).length
          · exact ⟨[Event.createCall, Event.yieldMsg ai (lit "summarizer")],
              by simp [run_stream, run_stream_body, init_clients, h1, h2, hp, hai, hc]⟩
          · exact ⟨[Event.createCall, Event.yieldMsg
                (create_formatted_review (topicOf task) (get_papers_sync env (topicOf task)))
                (lit "summarizer")],
              by simp [run_stream, run_stream_body, init_clients, h1, h2, hp, hai, hc]⟩
      | error e =>
          exact ⟨[Event.createCall, Event.yieldMsg
              (create_formatted_review (topicOf task) (get_papers_sync env (topicOf task)))
              (lit "summarizer")],
            by simp [run_stream, run_stream_body, init_clients, h1, h2, hp, hai]⟩

/-- Witness for `run_stream_key_before_fetch` on both branches. -/
theorem run_stream_key_before_fetch_w :
    run_stream envNoCredential taskQuantum =
      [Event.yieldMsg (lit "❌ Configuration Error: " ++ groqKeyErrMsg) (lit "system")]
  ∧ ∃ rest, run_stream envNoPapers taskQuantum =
      Event.adapterConstructed :: Event.fetchCall (topicOf taskQuantum) :: rest :=
  ⟨(run_stream_key_before_fetch envNoCredential taskQuantum).1 rfl rfl,
   (run_stream_key_before_fetch envNoPapers taskQuantum).2 rfl (lit "gsk_demo") rfl⟩

/-! ## C9 — empty fetch result -/

/-- C9 (confirmed): whenever the fetch yields zero papers (the arXiv
iteration raised, or simply returned nothing), `run_stream` yields the
single no-papers message and never calls the chat adapter. -/
theorem run_stream_zero_papers (env : Env) (task : Str) (initEvents : List Event)
    (hok : init_clients env = Except.ok initEvents)
    (hempty : (get_papers_sync env (topicOf task)).isEmpty = true) :
    run_stream env task =
      initEvents ++ [Event.fetchCall (topicOf task), Event.yieldMsg noPapersMsg (lit "researcher")]
  ∧ yields (run_stream env task) = [Event.yieldMsg noPapersMsg (lit "researcher")]
  ∧ Event.createCall ∉ run_stream env task := by
  have htr : run_stream env task =
      initEvents ++ [Event.fetchCall (topicOf task), Event.yieldMsg noPapersMsg (lit "researcher")] := by
    simp [run_stream, run_stream_body, hok, hempty]
  have hinit : initEvents = [] ∨ initEvents = [Event.adapterConstructed] := by
    by_cases hcr : env.clientReady
    · left
      have h := hok
      unfold init_clients at h
      rw [if_pos hcr] at h
      injection h with h
      exact h.symm
    · cases hk : env.apiKey with
      | none =>
          exfalso
          have h := hok
          unfold init_clients at h
          rw [if_neg hcr, hk] at h
          exact Except.noConfusion h
      | some k =>
          right
          have h := hok
          unfold init_clients at h
          rw [if_neg hcr, hk] at h
          injection h with h
          exact h.symm
  refine ⟨htr, ?_, ?_⟩
  · rw [htr]
    rcases hinit with h | h <;> subst h <;> rfl
  · rw [htr]
    rcases hinit with h | h <;> subst h <;> intro hm <;> simp at hm

/-- Witness for `run_stream_zero_papers`: an empty search result and a
raising arXiv iteration both end in the single no-papers message. -/
theorem run_stream_zero_papers_w :
    run_stream envNoPapers taskQuantum =
      [Event.adapterConstructed] ++ [Event.fetchCall (topicOf taskQuantum),
        Event.yieldMsg noPapersMsg (lit "researcher")]
  ∧ Event.createCall ∉ run_stream envFetchErr taskQuantum :=
  ⟨(run_stream_zero_papers envNoPapers taskQuantum [Event.adapterConstructed] rfl (by decide)).1,
   (run_stream_zero_papers envFetchErr taskQuantum [Event.adapterConstructed] rfl (by decide)).2.2⟩

/-! ## C4 — AI output threshold and silent fallback -/

/-- C4 (counterexample): `create` returns 101 space characters — output
longer than 100 characters — yet `run_stream` emits the deterministic
formatter output, not the AI text, because the threshold is applied to the
stripped output (here of length 0). -/
theorem run_stream_whitespace_ai_falls_back :
    100 < (List.replicate 101 ' ').length
  ∧ envWhitespaceAI.aiResult = Except.ok (List.replicate 101 ' ')
  ∧ run_stream envWhitespaceAI taskQuantum =
      [Event.adapterConstructed, Event.fetchCall (lit "quantum computing"), Event.createCall,
        Event.yieldMsg
          (create_formatted_review (lit "quantum computing")
            (get_papers_sync envWhitespaceAI (lit "quantum computing")))
          (lit "summarizer")]
  ∧ Event.yieldMsg (List.replicate 101 ' ') (lit "summarizer") ∉
      run_stream envWhitespaceAI taskQuantum := by
  have htr : run_stream envWhitespaceAI taskQuantum =
      [Event.adapterConstructed, Event.fetchCall (lit "quantum computing"), Event.createCall,
        Event.yieldMsg
          (create_formatted_review (lit "quantum computing")
            (get_papers_sync envWhitespaceAI (lit "quantum computing")))
          (lit "summarizer")] := rfl
  refine ⟨by decide, rfl, htr, ?_⟩
  rw [htr]
  intro hm
  have hne : List.replicate 101 ' ' ≠
      create_formatted_review (lit "quantum computing")
        (get_papers_sync envWhitespaceAI (lit "quantum computing")) := by
    intro he
    have hh := congrArg List.head? he
    have h1 : (List.replicate 101 ' ').head? = some ' ' := rfl
    have h2 : (create_formatted_review (lit "quantum computing")
        (get_papers_sync envWhitespaceAI (lit "quantum computing"))).head? = some '#' := rfl
    rw [h1, h2] at hh
    exact absurd (Option.some.inj hh) (by decide)
  simp only [List.mem_cons, List.not_mem_nil, or_false] at hm
  rcases hm with h | h | h | h
  · exact Event.noConfusion h
  · exact Event.noConfusion h
  · exact Event.noConfusion h
  · injection h with hcontent hsource
    exact hne hcontent

/-- C4 (amended): once generation is reached, a successful `create` whose
whitespace-stripped output is longer than 100 characters has its original
text emitted as the review; a success at or below that stripped threshold,
and any `create` failure, instead emit the deterministic formatter output
— yielded as an ordinary `summarizer` message, so the failure is not
surfaced to the caller as an error. -/
theorem run_stream_generation_threshold (env : Env) (task : Str) (initEvents : List Event)
    (hok : init_clients env = Except.ok initEvents)
    (hpapers : (get_papers_sync env (topicOf task)).isEmpty = false) :
    (∀ ai, env.aiResult = Except.ok ai → 100 < (pyStrip ai).length →
      run_stream env task = initEvents ++ [Event.fetchCall (topicOf task), Event.createCall,
        Event.yieldMsg ai (lit "summarizer")])
  ∧ (∀ ai, env.aiResult = Except.ok ai → (pyStrip ai).length ≤ 100 →
      run_stream env task = initEvents ++ [Event.fetchCall (topicOf task), Event.createCall,
        Event.yieldMsg
          (create_formatted_review (topicOf task) (get_papers_sync env (topicOf task)))
          (lit "summarizer")])
  ∧ (∀ e, env.aiResult = Except.error e →
      run_stream env task = initEvents ++ [Event.fetchCall (topicOf task), Event.createCall,
        Event.yieldMsg
          (create_formatted_review (topicOf task) (get_papers_sync env (topicOf task)))
          (lit "summarizer")]) := by
  refine ⟨?_, ?_, ?_⟩
  · intro ai hai hlen
    have hne : ai ≠ [] := by
      intro h
      subst h
      simp [pyStrip] at hlen
    simp [run_stream, run_stream_body, hok, hpapers, hai, hne, hlen]
  · intro ai hai hlen
    have hcond : ¬ (ai ≠ [] ∧ 100 < (pyStrip ai).length) := by
      rintro ⟨-, h⟩
      omega
    simp [run_stream, run_stream_body, hok, hpapers, hai, hcond]
  · intro e hai
    simp [run_stream, run_stream_body, hok, hpapers, hai]

/-- Witness for `run_stream_generation_threshold`: a 150-character AI
reply is emitted as is; a raising `create` falls back to the formatter. -/
theorem run_stream_generation_threshold_w :
    run_stream envLongAI taskQuantum =
      [Event.adapterConstructed] ++ [Event.fetchCall (topicOf taskQuantum), Event.createCall,
        Event.yieldMsg (List.replicate 150 'a') (lit "summarizer")]
  ∧ run_stream envAIFails taskQuantum =
      [Event.adapterConstructed] ++ [Event.fetchCall (topicOf taskQuantum), Event.createCall,
        Event.yieldMsg
          (create_formatted_review (topicOf taskQuantum)
            (get_papers_sync envAIFails (topicOf taskQuantum)))
          (lit "summarizer")] :=
  ⟨(run_stream_generation_threshold envLongAI taskQuantum [Event.adapterConstructed]
      rfl (by decide)).1 (List.replicate 150 'a') rfl (by decide),
   (run_stream_generation_threshold envAIFails taskQuantum [Event.adapterConstructed]
      rfl (by decide)).2.2 (lit "boom") rfl⟩

/-! ## C5 — no exception escapes the orchestrator -/

/-- C5 (confirmed): for every environment and task, `run_stream` is a
total trace whose last event is a yielded plain-text message — every path
(missing credential, empty or failing fetch, adapter failure, short
output) ends in a yield, never in a propagated exception. -/
theorem run_stream_always_yields (env : Env) (task : Str) :
    ∃ events content source,
      run_stream env task = events ++ [Event.yieldMsg content source] := by
  cases hin : init_clients env with
  | error e =>
      cases e with
      | valueError m =>
          exact ⟨[], lit "❌ Configuration Error: " ++ m, lit "system",
            by simp [run_stream, run_stream_body, hin]⟩
      | otherError m =>
          exact ⟨[], lit "❌ Error: " ++ m, lit "system",
            by simp [run_stream, run_stream_body, hin]⟩
  | ok evs =>
      by_cases hp : (get_papers_sync env (topicOf task)).isEmpty
      · exact ⟨evs ++ [Event.fetchCall (topicOf task)], noPapersMsg, lit "researcher",
          by simp [run_stream, run_stream_body, hin, hp]⟩
      · cases hai : env.aiResult with
        | ok ai =>
            by_cases hc : ai ≠ [] ∧ 100 < (pyStrip ai).length
            · exact ⟨evs ++ [Event.fetchCall (topicOf task), Event.createCall], ai,
                lit "summarizer",
                by simp [run_stream, run_stream_body, hin, hp, hai, hc]⟩
            · exact ⟨evs ++ [Event.fetchCall (topicOf task), Event.createCall],
                create_formatted_review (topicOf task) (get_papers_sync env (topicOf task)),
                lit "summarizer",
                by simp [run_stream, run_stream_body, hin, hp, hai, hc]⟩
        | error e =>
            exact ⟨evs ++ [Event.fetchCall (topicOf task), Event.createCall],
              create_formatted_review (topicOf task) (get_papers_sync env (topicOf task)),
              lit "summarizer",
              by simp [run_stream, run_stream_body, hin, hp, hai]⟩
